import Mathlib

/-!
Verification development for the gateway core: the connector supervisor
(`server-providers.ts`), the hook request handler and HTTP router
(`server-http.ts`, provided unnamed), and the small utility module
(`server-utils.ts`, provided unnamed) holding `normalizeVoiceWakeTriggers`
and `formatError`.

The TypeScript source is shallowly embedded: untrusted JavaScript values
become the inductive `JsValue`; JavaScript string primitives (`trim`,
`slice`, `join`, `JSON.stringify`, `String(...)`) are modelled as
executable Lean functions over character lists; the supervisor's mutable
closure state becomes explicit state records with pure transition
functions, and the single-threaded event scheduler becomes a small-step
relation whose steps are the synchronous blocks of the source.
-/

/-- Model of a JavaScript value as it can reach the gateway's untrusted
inputs: `undefined`, `null`, booleans, numbers (restricted to integers,
which is all the claims exercise), strings, arrays, plain objects, and
`Error` instances (carrying their `message`). -/
inductive JsValue where
  | undefined : JsValue
  | null : JsValue
  | bool : Bool → JsValue
  | num : Int → JsValue
  | str : String → JsValue
  | arr : List JsValue → JsValue
  | obj : List (String × JsValue) → JsValue
  | err : String → JsValue

/-- Model of JavaScript `String.prototype.trim()`: drop leading and
trailing whitespace characters. -/
def jsTrim (s : String) : String :=
  String.mk (((s.data.dropWhile Char.isWhitespace).reverse.dropWhile Char.isWhitespace).reverse)

/-- Model of JavaScript `String.prototype.slice(0, n)`: keep the first
`n` characters. -/
def jsSlice (n : Nat) (s : String) : String :=
  String.mk (s.data.take n)

/-- Model of JavaScript `String.prototype.slice(n)`: drop the first `n`
characters. -/
def jsSliceFrom (n : Nat) (s : String) : String :=
  String.mk (s.data.drop n)

/-- Model of JavaScript `Array.prototype.join(sep)`. -/
def jsJoin (sep : String) : List String → String
  | [] => ""
  | a :: rest => rest.foldl (fun acc x => acc ++ sep ++ x) a

/-- Modelled from the spec: the fixed default trigger set supplied by the
external voice-wake collaborator (`../infra/voicewake.js`, which is not
under `src/`). The spec fixes only that it is a fixed default list; we
model it as a concrete non-blank list. -/
def defaultVoiceWakeTriggers : List String :=
  ["claude", "hey claude"]

/-- The per-entry cleaning step of `normalizeVoiceWakeTriggers`:
`typeof v === "string" ? v.trim() : ""`. -/
def cleanVal : JsValue → String
  | .str s => jsTrim s
  | _ => ""

/-- The cleaning pipeline of `normalizeVoiceWakeTriggers` applied to the
raw array elements: map to trimmed strings, drop empties, cap at 32
entries, truncate each entry to 64 characters. -/
def cleanedTriggers (raw : List JsValue) : List String :=
  (((raw.map cleanVal).filter (fun v => v.length > 0)).take 32).map (jsSlice 64)

/-- Embedding of `normalizeVoiceWakeTriggers` (server-utils.ts): non-array
inputs are treated as the empty list; the cleaned list is returned unless
it is empty, in which case the fixed default list is returned. -/
def normalizeVoiceWakeTriggers (input : JsValue) : List String :=
  let raw : List JsValue := match input with
    | .arr xs => xs
    | _ => []
  let cleaned := cleanedTriggers raw
  if cleaned.length > 0 then cleaned else defaultVoiceWakeTriggers

/-- The `Array.isArray` test. -/
def isJsArray : JsValue → Bool
  | .arr _ => true
  | _ => false

/-- Holds (as a decidable Bool) when a string does not start with a
whitespace character. -/
def noLeadingWhitespace (t : String) : Bool :=
  match t.data.head? with
  | none => true
  | some c => !c.isWhitespace

/-- Property access `(err as \x7b status?: unknown \x7d)?.status`: field
lookup on plain objects; every other value (including `null` via optional
chaining) yields `undefined`, modelled as `JsValue.undefined`. -/
def jsGetField (v : JsValue) (key : String) : JsValue :=
  match v with
  | .obj fields =>
      match fields.lookup key with
      | some w => w
      | none => .undefined
  | _ => .undefined

/-- The coercion used for `status`/`code` in `formatError`: a string or a
number becomes `String(value)`; anything else is `undefined` (`none`). -/
def jsPrimToString : JsValue → Option String
  | .str s => some s
  | .num n => some (Int.repr n)
  | _ => none

/-- JavaScript truthiness of a `string | undefined` value: `undefined`
and the empty string are falsy. -/
def optTruthy : Option String → Bool
  | none => false
  | some s => s ≠ ""

/-- Escaping applied by `JSON.stringify` to string contents (quote and
backslash; the modelled value domain needs no other escapes). -/
def jsonEscape (s : String) : String :=
  String.mk (s.data.foldr
    (fun c acc =>
      match c with
      | '\"' => '\\' :: '\"' :: acc
      | '\\' => '\\' :: '\\' :: acc
      | c => c :: acc) [])

/-- Indentation string used by `JSON.stringify(v, null, 2)` at nesting
depth `d`. -/
def jsonIndent (d : Nat) : String :=
  String.mk (List.replicate (2 * d) ' ')

mutual

/-- Model of `JSON.stringify(v, null, 2)` at nesting depth `d`. It
returns `none` (JavaScript `undefined`) exactly for `undefined`; arrays
render `undefined` elements as `null`; objects skip `undefined`-valued
fields. -/
def jsonStringifyAt (d : Nat) : JsValue → Option String
  | .undefined => none
  | .null => some "null"
  | .bool true => some "true"
  | .bool false => some "false"
  | .num n => some (Int.repr n)
  | .str s => some ("\"" ++ jsonEscape s ++ "\"")
  | .arr xs =>
      match jsonArrayItems (d + 1) xs with
      | [] => some "[]"
      | items => some ("[\n" ++ jsJoin ",\n" (items.map (fun it => jsonIndent (d + 1) ++ it)) ++ "\n" ++ jsonIndent d ++ "]")
  | .obj fs =>
      match jsonObjectItems (d + 1) fs with
      | [] => some "\x7b\x7d"
      | items => some ("\x7b\n" ++ jsJoin ",\n" (items.map (fun it => jsonIndent (d + 1) ++ it)) ++ "\n" ++ jsonIndent d ++ "\x7d")
  | .err _ => some "\x7b\x7d"

/-- Rendered array elements for `JSON.stringify`: `undefined` elements
become `"null"`. -/
def jsonArrayItems (d : Nat) : List JsValue → List String
  | [] => []
  | v :: rest =>
      (match jsonStringifyAt d v with
        | some s => s
        | none => "null") :: jsonArrayItems d rest

/-- Rendered object fields for `JSON.stringify`: fields whose value is
`undefined` are skipped. -/
def jsonObjectItems (d : Nat) : List (String × JsValue) → List String
  | [] => []
  | (k, v) :: rest =>
      match jsonStringifyAt d v with
      | some s => ("\"" ++ jsonEscape k ++ "\": " ++ s) :: jsonObjectItems d rest
      | none => jsonObjectItems d rest

end

/-- Model of `JSON.stringify(err, null, 2)` as called by `formatError`.
On the modelled value domain (finite trees, no `BigInt`) `JSON.stringify`
never throws, so the `catch \x7b return String(err) \x7d` branch of the
source is unreachable; it does, however, return `undefined` (here `none`)
for an `undefined` input. -/
def jsonStringify (v : JsValue) : Option String :=
  jsonStringifyAt 0 v

mutual

/-- Model of the JavaScript `String(v)` coercion (used in log text). -/
def jsString : JsValue → String
  | .undefined => "undefined"
  | .null => "null"
  | .bool true => "true"
  | .bool false => "false"
  | .num n => Int.repr n
  | .str s => s
  | .arr xs => jsJoin "," (jsStringItems xs)
  | .obj _ => "[object Object]"
  | .err m => "Error: " ++ m

/-- Array elements under the `String(...)` coercion: `undefined` and
`null` elements render as the empty string. -/
def jsStringItems : List JsValue → List String
  | [] => []
  | .undefined :: rest => "" :: jsStringItems rest
  | .null :: rest => "" :: jsStringItems rest
  | v :: rest => jsString v :: jsStringItems rest

end

/-- Embedding of `formatError` (server-utils.ts). `Error` instances yield
their message; plain strings are returned as-is; otherwise a textual
`status`/`code` pair (when at least one is truthy) is joined by a single
space after filtering out falsy parts; otherwise `JSON.stringify(err,
null, 2)` — which is `undefined` (`none`) for an `undefined` input. -/
def formatError (v : JsValue) : Option String :=
  match v with
  | .err m => some m
  | .str s => some s
  | _ =>
      let statusText := jsPrimToString (jsGetField v "status")
      let codeText := jsPrimToString (jsGetField v "code")
      if optTruthy statusText || optTruthy codeText then
        some (jsJoin " " (([statusText, codeText].filterMap id).filter (fun s => s ≠ "")))
      else
        jsonStringify v

/-! ## Connector supervisor (`server-providers.ts`)

Each connector's mutable closure state (`<kind>Task`, `<kind>Abort`,
`<kind>Runtime`) becomes an explicit state record; the task handle and
abort controller are modelled by presence flags, since the supervisor
only ever tests them for null-ness. The synchronous blocks of the source
become pure transition functions; `Date.now()` and configuration reads
become explicit inputs. -/

/-- The `WebProviderStatus` record shape, fixed by the initial literal in
`createProviderManager` (the type itself lives in `../web/auto-reply.js`,
outside `src/`). -/
structure WebProviderStatus where
  running : Bool
  connected : Bool
  reconnectAttempts : Nat := 0
  lastConnectedAt : Option Nat := none
  lastDisconnect : Option String := none
  lastMessageAt : Option Nat := none
  lastEventAt : Option Nat := none
  lastError : Option String := none
deriving DecidableEq

/-- Telegram provider mode, `"webhook" | "polling"`. -/
inductive TelegramMode where
  | webhook : TelegramMode
  | polling : TelegramMode
deriving DecidableEq

/-- Embedding of `TelegramRuntimeStatus`. -/
structure TelegramRuntimeStatus where
  running : Bool
  lastStartAt : Option Nat := none
  lastStopAt : Option Nat := none
  lastError : Option String := none
  mode : Option TelegramMode := none
deriving DecidableEq

/-- Embedding of `DiscordRuntimeStatus`. -/
structure DiscordRuntimeStatus where
  running : Bool
  lastStartAt : Option Nat := none
  lastStopAt : Option Nat := none
  lastError : Option String := none
deriving DecidableEq

/-- Embedding of `SignalRuntimeStatus`. -/
structure SignalRuntimeStatus where
  running : Bool
  lastStartAt : Option Nat := none
  lastStopAt : Option Nat := none
  lastError : Option String := none
  baseUrl : Option String := none
deriving DecidableEq

/-- Embedding of `IMessageRuntimeStatus`. -/
structure IMessageRuntimeStatus where
  running : Bool
  lastStartAt : Option Nat := none
  lastStopAt : Option Nat := none
  lastError : Option String := none
  cliPath : Option String := none
  dbPath : Option String := none
deriving DecidableEq

/-- Supervisor-owned state for the WhatsApp connector: the status record
plus presence of the task handle (`whatsappTask != null`) and of the
abort controller (`whatsappAbort != null`). -/
structure WhatsAppState where
  runtime : WebProviderStatus
  task : Bool
  abortC : Bool
deriving DecidableEq

/-- Supervisor-owned state for the Telegram connector. -/
structure TelegramState where
  runtime : TelegramRuntimeStatus
  task : Bool
  abortC : Bool
deriving DecidableEq

/-- Supervisor-owned state for the Discord connector. -/
structure DiscordState where
  runtime : DiscordRuntimeStatus
  task : Bool
  abortC : Bool
deriving DecidableEq

/-- Supervisor-owned state for the Signal connector. -/
structure SignalState where
  runtime : SignalRuntimeStatus
  task : Bool
  abortC : Bool
deriving DecidableEq

/-- Supervisor-owned state for the iMessage connector. -/
structure IMessageState where
  runtime : IMessageRuntimeStatus
  task : Bool
  abortC : Bool
deriving DecidableEq

/-- Observable effects of one `start<Kind>Provider` call: whether
`loadConfig()` was invoked, and whether a monitor task was launched. -/
structure StartLog where
  configRead : Bool
  taskCreated : Bool
deriving DecidableEq

/-- External inputs consumed by one `startWhatsAppProvider` call:
`cfg.web?.enabled` and the result of `webAuthExists()` (`readWebSelfId`
feeds only a log line and is omitted). -/
structure WhatsAppStartEnv where
  webEnabled : Option Bool
  authExists : Bool

/-- External inputs consumed by one `startTelegramProvider` call:
`cfg.telegram?.enabled`, the token resolved by `resolveTelegramToken`,
`cfg.telegram?.webhookUrl`, and `Date.now()` (the bot probe affects only
a log label and is omitted). -/
structure TelegramStartEnv where
  telegramEnabled : Option Bool
  resolvedToken : String
  webhookUrl : Option String
  now : Nat

/-- External inputs consumed by one `startDiscordProvider` call:
`cfg.discord?.enabled`, `process.env.DISCORD_BOT_TOKEN ?? cfg.discord?.token
?? ""`, and `Date.now()`. -/
structure DiscordStartEnv where
  discordEnabled : Option Bool
  token : String
  now : Nat

/-- The fields of `cfg.signal` consulted by `startSignalProvider`. -/
structure SignalConfigModel where
  enabled : Option Bool := none
  account : Option String := none
  httpUrl : Option String := none
  cliPath : Option String := none
  httpHost : Option String := none
  httpPort : Option Nat := none
  autoStart : Option Bool := none

/-- External inputs consumed by one `startSignalProvider` call. -/
structure SignalStartEnv where
  signal : Option SignalConfigModel
  now : Nat

/-- The fields of `cfg.imessage` consulted by `startIMessageProvider`
for its state effects. -/
structure IMessageConfigModel where
  enabled : Option Bool := none
  cliPath : Option String := none
  dbPath : Option String := none

/-- External inputs consumed by one `startIMessageProvider` call. -/
structure IMessageStartEnv where
  imessage : Option IMessageConfigModel
  now : Nat

/-- Truthiness of `x?.trim()` for `x : string | undefined`. -/
def optTrimTruthy : Option String → Bool
  | none => false
  | some s => jsTrim s ≠ ""

/-- Model of `x?.trim() || dflt`. -/
def optTrimOr (dflt : String) : Option String → String
  | none => dflt
  | some s => if jsTrim s = "" then dflt else jsTrim s

/-- Embedding of `startWhatsAppProvider`: no-op while a task handle is
present; otherwise reads configuration and either records a skip reason
(`"disabled"`, `"not linked"`) without starting, or creates the abort
controller, flips the status to running, and launches the monitor task
— all within one synchronous block. -/
def startWhatsAppProvider (env : WhatsAppStartEnv) (s : WhatsAppState) :
    WhatsAppState × StartLog :=
  if s.task then (s, ⟨false, false⟩)
  else if env.webEnabled = some false then
    ({ s with runtime :=
        { s.runtime with running := false, connected := false, lastError := some "disabled" } },
     ⟨true, false⟩)
  else if !env.authExists then
    ({ s with runtime :=
        { s.runtime with running := false, connected := false, lastError := some "not linked" } },
     ⟨true, false⟩)
  else
    ({ runtime := { s.runtime with running := true, connected := false, lastError := none },
       task := true, abortC := true },
     ⟨true, true⟩)

/-- Embedding of `startTelegramProvider` (same shape: no-op on a live
task; skip reasons `"disabled"` / `"not configured"`; otherwise launch
with `lastStartAt := Date.now()` and the webhook/polling mode). -/
def startTelegramProvider (env : TelegramStartEnv) (s : TelegramState) :
    TelegramState × StartLog :=
  if s.task then (s, ⟨false, false⟩)
  else if env.telegramEnabled = some false then
    ({ s with runtime := { s.runtime with running := false, lastError := some "disabled" } },
     ⟨true, false⟩)
  else if jsTrim env.resolvedToken = "" then
    ({ s with runtime := { s.runtime with running := false, lastError := some "not configured" } },
     ⟨true, false⟩)
  else
    ({ runtime :=
        { s.runtime with running := true, lastStartAt := some env.now, lastError := none,
                         mode := some (if optTruthy env.webhookUrl then .webhook else .polling) },
       task := true, abortC := true },
     ⟨true, true⟩)

/-- Embedding of `startDiscordProvider`. -/
def startDiscordProvider (env : DiscordStartEnv) (s : DiscordState) :
    DiscordState × StartLog :=
  if s.task then (s, ⟨false, false⟩)
  else if env.discordEnabled = some false then
    ({ s with runtime := { s.runtime with running := false, lastError := some "disabled" } },
     ⟨true, false⟩)
  else if jsTrim env.token = "" then
    ({ s with runtime := { s.runtime with running := false, lastError := some "not configured" } },
     ⟨true, false⟩)
  else
    ({ runtime := { s.runtime with running := true, lastStartAt := some env.now, lastError := none },
       task := true, abortC := true },
     ⟨true, true⟩)

/-- Embedding of `startSignalProvider`, including the
"meaningfully configured" gate over the signal config fields. -/
def startSignalProvider (env : SignalStartEnv) (s : SignalState) :
    SignalState × StartLog :=
  if s.task then (s, ⟨false, false⟩)
  else
    match env.signal with
    | none =>
        ({ s with runtime := { s.runtime with running := false, lastError := some "not configured" } },
         ⟨true, false⟩)
    | some sc =>
        if sc.enabled = some false then
          ({ s with runtime := { s.runtime with running := false, lastError := some "disabled" } },
           ⟨true, false⟩)
        else if !(optTrimTruthy sc.account || optTrimTruthy sc.httpUrl ||
                  optTrimTruthy sc.cliPath || optTrimTruthy sc.httpHost ||
                  sc.httpPort.isSome || sc.autoStart.isSome) then
          ({ s with runtime := { s.runtime with running := false, lastError := some "not configured" } },
           ⟨true, false⟩)
        else
          let host := optTrimOr "127.0.0.1" sc.httpHost
          let port := sc.httpPort.getD 8080
          let baseUrl := optTrimOr ("http://" ++ host ++ ":" ++ Nat.repr port) sc.httpUrl
          ({ runtime :=
              { s.runtime with running := true, lastStartAt := some env.now, lastError := none,
                               baseUrl := some baseUrl },
             task := true, abortC := true },
           ⟨true, true⟩)

/-- Embedding of `startIMessageProvider`. -/
def startIMessageProvider (env : IMessageStartEnv) (s : IMessageState) :
    IMessageState × StartLog :=
  if s.task then (s, ⟨false, false⟩)
  else
    match env.imessage with
    | none =>
        ({ s with runtime := { s.runtime with running := false, lastError := some "not configured" } },
         ⟨true, false⟩)
    | some ic =>
        if ic.enabled = some false then
          ({ s with runtime := { s.runtime with running := false, lastError := some "disabled" } },
           ⟨true, false⟩)
        else
          let cliPath := optTrimOr "imsg" ic.cliPath
          let dbPath := ic.dbPath.map jsTrim
          ({ runtime :=
              { s.runtime with running := true, lastStartAt := some env.now, lastError := none,
                               cliPath := some cliPath, dbPath := dbPath },
             task := true, abortC := true },
           ⟨true, true⟩)

/-- The `.catch` callback of the WhatsApp monitor chain: capture the
formatted error into `lastError` (the log call has no state effect).
This callback is a separate scheduler step from the `.finally` below. -/
def settleCatchWhatsApp (e : String) (s : WhatsAppState) : WhatsAppState :=
  { s with runtime := { s.runtime with lastError := some e } }

/-- The `.finally` callback of the WhatsApp monitor chain as one atomic
step: clear the abort controller and the task handle, and flip
`running`/`connected` to false. -/
def settleFinallyWhatsApp (s : WhatsAppState) : WhatsAppState :=
  { runtime := { s.runtime with running := false, connected := false },
    task := false, abortC := false }

/-- The `.finally` callback of the WhatsApp monitor chain decomposed into
the source's three successive assignments (`whatsappAbort = null`;
`whatsappTask = null`; runtime update), listing the intermediate states
in source order. No other scheduler step can interleave inside this
synchronous block. -/
def settleFinallyMicroWhatsApp (s : WhatsAppState) : List WhatsAppState :=
  let s1 := { s with abortC := false }
  let s2 := { s1 with task := false }
  let s3 := { s2 with runtime := { s2.runtime with running := false, connected := false } }
  [s1, s2, s3]

/-- The tail of `stopWhatsAppProvider` after the awaited task has
settled: clear handle and abort controller, flip the status flags. -/
def stopTailWhatsApp (s : WhatsAppState) : WhatsAppState :=
  { runtime := { s.runtime with running := false, connected := false },
    task := false, abortC := false }

/-- Embedding of `markWhatsAppLoggedOut`: one synchronous runtime-record
update (the task handle and abort controller fields are not touched). -/
def markWhatsAppLoggedOut (cleared : Bool) (s : WhatsAppState) : WhatsAppState :=
  { s with runtime :=
      { s.runtime with running := false, connected := false,
                       lastError := if cleared then some "logged out" else s.runtime.lastError } }

/-- The `.catch` callback of the Telegram monitor chain. -/
def settleCatchTelegram (e : String) (s : TelegramState) : TelegramState :=
  { s with runtime := { s.runtime with lastError := some e } }

/-- The `.finally` callback of the Telegram monitor chain as one atomic
step: clear abort controller and task handle, set `running := false` and
`lastStopAt := Date.now()`. -/
def settleFinallyTelegram (now : Nat) (s : TelegramState) : TelegramState :=
  { runtime := { s.runtime with running := false, lastStopAt := some now },
    task := false, abortC := false }

/-- The tail of `stopTelegramProvider` after the awaited task settled. -/
def stopTailTelegram (now : Nat) (s : TelegramState) : TelegramState :=
  { runtime := { s.runtime with running := false, lastStopAt := some now },
    task := false, abortC := false }

/-- Initial WhatsApp state from the literals in `createProviderManager`. -/
def whatsappInit : WhatsAppState :=
  { runtime := { running := false, connected := false, reconnectAttempts := 0 },
    task := false, abortC := false }

/-- Initial Telegram state from the literals in `createProviderManager`. -/
def telegramInit : TelegramState :=
  { runtime := { running := false }, task := false, abortC := false }

/-- Aggregated snapshot record returned by `getRuntimeSnapshot`. -/
structure ProviderRuntimeSnapshot where
  whatsapp : WebProviderStatus
  telegram : TelegramRuntimeStatus
  discord : DiscordRuntimeStatus
  signal : SignalRuntimeStatus
  imessage : IMessageRuntimeStatus
deriving DecidableEq

/-- Embedding of `getRuntimeSnapshot`: a copy of each per-connector
status record (copying is the identity in the pure model). -/
def getRuntimeSnapshot (w : WhatsAppState) (t : TelegramState) (d : DiscordState)
    (sg : SignalState) (im : IMessageState) : ProviderRuntimeSnapshot :=
  { whatsapp := w.runtime, telegram := t.runtime, discord := d.runtime,
    signal := sg.runtime, imessage := im.runtime }

/-- Fine-grained scheduler state for the WhatsApp connector: the
supervisor-owned fields (`core`), the number of `startWhatsAppProvider`
calls currently suspended at `await webAuthExists()` (`pending` — the
call suspends there after its idempotency check and before launching),
and the number of live monitor tasks (`monitors`). More than one monitor
can be live: the resumed continuation does not re-check the task handle,
so calls that overlapped across the suspension double-launch, and a
monitor stays live after its stored handle is overwritten or cleared. -/
structure WhatsAppSchedState where
  core : WhatsAppState
  pending : Nat
  monitors : Nat
deriving DecidableEq

/-- One scheduler-atomic step of the WhatsApp supervisor, at the
granularity the source's suspension points dictate — every constructor
is a step the program can really take from a state satisfying its guard.
A `start` call is two steps: its synchronous prefix up to
`await webAuthExists()` (`startDisabled` when `cfg.web?.enabled === false`
returns early, `startAwait` otherwise — both after the `if (whatsappTask)
return` check), and its continuation (`startNotLinked` / `startLaunch`),
which runs without re-checking the task handle. The monitor chain's
`.catch` and `.finally` callbacks are their own synchronous steps; the
`.finally` of any live monitor — an orphaned one included — clears the
single stored handle and token unconditionally. `statusSink` is a push
from any live monitor: the pushed record is chosen by the external
monitor code (outside `src/`), so it is arbitrary here, and the
supervisor stores it as-is. `mark` is the public `markWhatsAppLoggedOut`
call, one synchronous block. (The tail of `stopWhatsAppProvider` only
drives fields toward the idle state and is not needed by any theorem
below, so it is not modelled for this connector.) -/
inductive WhatsAppSchedStep : WhatsAppSchedState → WhatsAppSchedState → Prop where
  | startDisabled (s : WhatsAppSchedState) (h : s.core.task = false) :
      WhatsAppSchedStep s
        ⟨{ s.core with runtime := { s.core.runtime with running := false, connected := false, lastError := some "disabled" } },
         s.pending, s.monitors⟩
  | startAwait (s : WhatsAppSchedState) (h : s.core.task = false) :
      WhatsAppSchedStep s ⟨s.core, s.pending + 1, s.monitors⟩
  | startNotLinked (s : WhatsAppSchedState) (h : 1 ≤ s.pending) :
      WhatsAppSchedStep s
        ⟨{ s.core with runtime := { s.core.runtime with running := false, connected := false, lastError := some "not linked" } },
         s.pending - 1, s.monitors⟩
  | startLaunch (s : WhatsAppSchedState) (h : 1 ≤ s.pending) :
      WhatsAppSchedStep s
        ⟨⟨{ s.core.runtime with running := true, connected := false, lastError := none },
          true, true⟩,
         s.pending - 1, s.monitors + 1⟩
  | settleCatch (e : String) (s : WhatsAppSchedState) (h : 1 ≤ s.monitors) :
      WhatsAppSchedStep s ⟨settleCatchWhatsApp e s.core, s.pending, s.monitors⟩
  | settleFinally (s : WhatsAppSchedState) (h : 1 ≤ s.monitors) :
      WhatsAppSchedStep s ⟨settleFinallyWhatsApp s.core, s.pending, s.monitors - 1⟩
  | mark (cleared : Bool) (s : WhatsAppSchedState) :
      WhatsAppSchedStep s ⟨markWhatsAppLoggedOut cleared s.core, s.pending, s.monitors⟩
  | statusSink (next : WebProviderStatus) (s : WhatsAppSchedState) (h : 1 ≤ s.monitors) :
      WhatsAppSchedStep s ⟨{ s.core with runtime := next }, s.pending, s.monitors⟩

/-- States of the WhatsApp connector reachable from the initial state by
scheduler steps. -/
inductive ReachWhatsAppSched : WhatsAppSchedState → Prop where
  | init : ReachWhatsAppSched ⟨whatsappInit, 0, 0⟩
  | step {s t : WhatsAppSchedState} :
      ReachWhatsAppSched s → WhatsAppSchedStep s t → ReachWhatsAppSched t

/-- Fine-grained scheduler state for the Telegram connector (`pending`
counts `startTelegramProvider` calls suspended at `await probeTelegram`,
which sits after the enabled/token checks and before the launch;
`monitors` counts live monitor tasks). -/
structure TelegramSchedState where
  core : TelegramState
  pending : Nat
  monitors : Nat
deriving DecidableEq

/-- One scheduler-atomic step of the Telegram supervisor. Unlike the
WhatsApp relation, this one is used to PROVE a safety invariant, so it
over-approximates where exact bookkeeping would need task identities:
`stopTail` may fire at any time (the real stop tail runs only after its
awaited task settled), and `startLaunch` is not gated on the resolved
token — every real step is covered by some constructor, which is the
sound direction for a safety proof. The suspension of a `start` call at
`await probeTelegram` (between the synchronous checks and the launch,
with no re-check of the task handle on resume) is modelled exactly as
for WhatsApp; there is no status sink for this connector. -/
inductive TelegramSchedStep : TelegramSchedState → TelegramSchedState → Prop where
  | startDisabled (s : TelegramSchedState) (h : s.core.task = false) :
      TelegramSchedStep s
        ⟨{ s.core with runtime := { s.core.runtime with running := false, lastError := some "disabled" } },
         s.pending, s.monitors⟩
  | startNotConfigured (s : TelegramSchedState) (h : s.core.task = false) :
      TelegramSchedStep s
        ⟨{ s.core with runtime := { s.core.runtime with running := false, lastError := some "not configured" } },
         s.pending, s.monitors⟩
  | startAwait (s : TelegramSchedState) (h : s.core.task = false) :
      TelegramSchedStep s ⟨s.core, s.pending + 1, s.monitors⟩
  | startLaunch (now : Nat) (webhookUrl : Option String) (s : TelegramSchedState)
      (h : 1 ≤ s.pending) :
      TelegramSchedStep s
        ⟨⟨{ s.core.runtime with running := true, lastStartAt := some now, lastError := none,
                                mode := some (if optTruthy webhookUrl then .webhook else .polling) },
          true, true⟩,
         s.pending - 1, s.monitors + 1⟩
  | settleCatch (e : String) (s : TelegramSchedState) (h : 1 ≤ s.monitors) :
      TelegramSchedStep s ⟨settleCatchTelegram e s.core, s.pending, s.monitors⟩
  | settleFinally (now : Nat) (s : TelegramSchedState) (h : 1 ≤ s.monitors) :
      TelegramSchedStep s ⟨settleFinallyTelegram now s.core, s.pending, s.monitors - 1⟩
  | stopTail (now : Nat) (s : TelegramSchedState) :
      TelegramSchedStep s ⟨stopTailTelegram now s.core, s.pending, s.monitors⟩

/-- States of the Telegram connector reachable from the initial state by
scheduler steps. -/
inductive ReachTelegramSched : TelegramSchedState → Prop where
  | init : ReachTelegramSched ⟨telegramInit, 0, 0⟩
  | step {s t : TelegramSchedState} :
      ReachTelegramSched s → TelegramSchedStep s t → ReachTelegramSched t

/-! ## Hook ingress gateway (`server-http.ts`)

`createHooksRequestHandler` is embedded as a pure function from the hook
configuration and the per-request external inputs to an optional handled
result. The collaborators that live outside `src/` (`extractHookToken`,
`readJsonBody`, `normalizeWakePayload`, `normalizeAgentPayload`,
`applyHookMappings` — all in `./hooks.js` / `./hooks-mapping.js`) are
modelled by their outcomes, supplied as explicit inputs in
`HookRequestEnv`; the handler's own control flow is translated from the
source. -/

/-- Wake delivery mode, `"now" | "next-heartbeat"`. -/
inductive WakeMode where
  | now : WakeMode
  | nextHeartbeat : WakeMode
deriving DecidableEq

/-- Wire string of a wake mode. -/
def wakeModeStr : WakeMode → String
  | .now => "now"
  | .nextHeartbeat => "next-heartbeat"

/-- Delivery channel of an agent hook. -/
inductive HookChannel where
  | last | whatsapp | telegram | discord | signal | imessage
deriving DecidableEq

/-- Value dispatched by `dispatchWakeHook`. -/
structure WakeHookValue where
  text : String
  mode : WakeMode
deriving DecidableEq

/-- Value dispatched by `dispatchAgentHook`. -/
structure AgentHookValue where
  message : String
  name : String
  wakeMode : WakeMode
  sessionKey : String
  deliver : Bool
  channel : HookChannel
  toRecipient : Option String := none
  thinking : Option String := none
  timeoutSeconds : Option Nat := none
deriving DecidableEq

/-- A configured mapping rule; the dispatcher treats rules as opaque
(they are only counted and forwarded to the external engine). -/
inductive MappingRule where
  | mk : MappingRule
deriving DecidableEq

/-- Embedding of `HooksConfigResolved` as consumed by the handler. -/
structure HooksConfigResolved where
  basePath : String
  token : String
  maxBodyBytes : Nat
  mappings : List MappingRule

/-- The value `applyHookMappings` can resolve with, when it does not
throw: a falsy result (no rule matched), a failure (`mapped.ok ==
false`), a matched rule with `action === null`, or a wake/agent
action (agent fields optional exactly where the source applies
defaults). -/
inductive MappedValue where
  | failure (error : String)
  | actionNull
  | wake (text : String) (mode : WakeMode)
  | agent (message : String) (name : Option String) (wakeMode : WakeMode)
      (sessionKey : Option String) (deliver : Option Bool) (channel : Option HookChannel)
      (toRecipient : Option String) (thinking : Option String) (timeoutSeconds : Option Nat)

/-- Outcome of the awaited `applyHookMappings` call: either it threw, or
it returned (`none` models a falsy `mapped`). -/
inductive MappingOutcome where
  | threw (e : JsValue)
  | returned (r : Option MappedValue)

/-- Per-request external inputs to the hook handler: the parsed URL path
and method, the result of `extractHookToken` (`none` models `null`), the
outcome of `readJsonBody`, the outcomes of the two payload normalizers,
the outcome of `applyHookMappings`, and the run id that
`dispatchAgentHook` returns. -/
structure HookRequestEnv where
  pathname : String
  method : String
  extractedToken : Option String
  bodyResult : Except String JsValue
  wakeNorm : Except String WakeHookValue
  agentNorm : Except String AgentHookValue
  mappingOutcome : MappingOutcome
  agentRunId : String

/-- Body written on an HTTP response: plain text, the JSON object passed
to `sendJson`, or nothing (`res.end()` with no body). -/
inductive RespBody where
  | text (s : String)
  | json (fields : List (String × JsValue))
  | empty

/-- An HTTP response as assembled by the handler: status code, optional
`Content-Type` and `Allow` headers, and the body. -/
structure HookResponse where
  status : Nat
  contentType : Option String := none
  allow : Option String := none
  body : RespBody

/-- A dispatch callback invocation performed by the handler. -/
inductive HookDispatch where
  | wake (v : WakeHookValue)
  | agent (v : AgentHookValue)

/-- Result of a handled hook request: the response written, the dispatch
callbacks invoked, and the warn-level log lines emitted. -/
structure HookHandled where
  response : HookResponse
  dispatches : List HookDispatch
  warnLogs : List String

/-- Embedding of the `sendJson` helper. -/
def sendJson (status : Nat) (fields : List (String × JsValue)) : HookResponse :=
  { status := status, contentType := some "application/json; charset=utf-8",
    body := .json fields }

/-- A plain-text response (`text/plain; charset=utf-8`). -/
def plainText (status : Nat) (msg : String) : HookResponse :=
  { status := status, contentType := some "text/plain; charset=utf-8",
    body := .text msg }

/-- Path match performed by the handler:
`url.pathname !== basePath && !url.pathname.startsWith(basePath + "/")`
declines the request. -/
def hookPathMatches (basePath pathname : String) : Bool :=
  pathname = basePath || (basePath ++ "/").data.isPrefixOf pathname.data

/-- Sub-path computation:
`url.pathname.slice(basePath.length).replace(/^\/+/, "")`. -/
def hookSubPath (basePath pathname : String) : String :=
  String.mk ((pathname.data.drop basePath.data.length).dropWhile (fun c => c = '/'))

/-- The token gate `!token || token !== hooksConfig.token`, expressed
positively: the request is authenticated iff a token was extracted, it
is non-empty (truthy), and it equals the configured secret. -/
def hookTokenAccepted (cfg : HooksConfigResolved) (token : Option String) : Bool :=
  match token with
  | none => false
  | some t => !(t = "") && t = cfg.token

/-- Embedding of the request handler returned by
`createHooksRequestHandler`. `none` models `return false` (request not
handled, router falls through); `some` carries the response written,
the dispatches performed, and the warn logs emitted. -/
def handleHooksRequest (hooksConfig : Option HooksConfigResolved)
    (env : HookRequestEnv) : Option HookHandled :=
  match hooksConfig with
  | none => none
  | some cfg =>
      if !hookPathMatches cfg.basePath env.pathname then none
      else some (
        if !hookTokenAccepted cfg env.extractedToken then
          { response := plainText 401 "Unauthorized", dispatches := [], warnLogs := [] }
        else if env.method ≠ "POST" then
          { response := { plainText 405 "Method Not Allowed" with allow := some "POST" },
            dispatches := [], warnLogs := [] }
        else
          let subPath := hookSubPath cfg.basePath env.pathname
          if subPath = "" then
            { response := plainText 404 "Not Found", dispatches := [], warnLogs := [] }
          else
            match env.bodyResult with
            | .error msg =>
                { response := sendJson (if msg = "payload too large" then 413 else 400)
                    [("ok", .bool false), ("error", .str msg)],
                  dispatches := [], warnLogs := [] }
            | .ok _value =>
                if subPath = "wake" then
                  match env.wakeNorm with
                  | .error e =>
                      { response := sendJson 400 [("ok", .bool false), ("error", .str e)],
                        dispatches := [], warnLogs := [] }
                  | .ok v =>
                      { response := sendJson 200 [("ok", .bool true), ("mode", .str (wakeModeStr v.mode))],
                        dispatches := [.wake v], warnLogs := [] }
                else if subPath = "agent" then
                  match env.agentNorm with
                  | .error e =>
                      { response := sendJson 400 [("ok", .bool false), ("error", .str e)],
                        dispatches := [], warnLogs := [] }
                  | .ok v =>
                      { response := sendJson 202 [("ok", .bool true), ("runId", .str env.agentRunId)],
                        dispatches := [.agent v], warnLogs := [] }
                else if cfg.mappings.length > 0 then
                  match env.mappingOutcome with
                  | .threw e =>
                      { response := sendJson 500 [("ok", .bool false), ("error", .str "hook mapping failed")],
                        dispatches := [],
                        warnLogs := ["hook mapping failed: " ++ jsString e] }
                  | .returned none =>
                      { response := plainText 404 "Not Found", dispatches := [], warnLogs := [] }
                  | .returned (some (.failure e)) =>
                      { response := sendJson 400 [("ok", .bool false), ("error", .str e)],
                        dispatches := [], warnLogs := [] }
                  | .returned (some .actionNull) =>
                      { response := { status := 204, body := .empty },
                        dispatches := [], warnLogs := [] }
                  | .returned (some (.wake text mode)) =>
                      { response := sendJson 200 [("ok", .bool true), ("mode", .str (wakeModeStr mode))],
                        dispatches := [.wake { text := text, mode := mode }], warnLogs := [] }
                  | .returned (some (.agent message name wakeMode sessionKey deliver channel toRecipient thinking timeoutSeconds)) =>
                      { response := sendJson 202 [("ok", .bool true), ("runId", .str env.agentRunId)],
                        dispatches := [.agent
                          { message := message, name := name.getD "Hook", wakeMode := wakeMode,
                            sessionKey := sessionKey.getD "", deliver := deliver == some true,
                            channel := channel.getD .last, toRecipient := toRecipient, thinking := thinking,
                            timeoutSeconds := timeoutSeconds }],
                        warnLogs := [] }
                else
                  { response := plainText 404 "Not Found", dispatches := [], warnLogs := [] })

/-- The `error` field of a JSON response body, when it is a string
(used to state what error text a response carries). -/
def respErrorText (r : HookResponse) : Option String :=
  match r.body with
  | .json fields =>
      match fields.lookup "error" with
      | some (.str s) => some s
      | _ => none
  | _ => none


/-! ## Claim theorems -/

/-- C10: for every non-array input (`null`, `undefined`, a string, a
number, or a plain object), `normalizeVoiceWakeTriggers` treats the input
as an empty list and returns the fixed default voice-wake trigger
list. -/
theorem c10_nonarray_defaults (v : JsValue) (h : isJsArray v = false) :
    normalizeVoiceWakeTriggers v = defaultVoiceWakeTriggers := by
  cases v <;> simp_all [isJsArray, normalizeVoiceWakeTriggers, cleanedTriggers]

/-- C10 witness: `null` is not an array and yields the default list. -/
theorem c10_nonarray_defaults_witness :
    isJsArray JsValue.null = false ∧
    normalizeVoiceWakeTriggers JsValue.null = defaultVoiceWakeTriggers :=
  ⟨rfl, c10_nonarray_defaults JsValue.null rfl⟩

/-- C9: on a matched hook path, an absent (`null`) or empty extracted
token is rejected with `401 Unauthorized` — for every configuration,
including one whose secret is itself the empty string, since
`!token` short-circuits before the comparison with the secret. -/
theorem c9_empty_token_rejected (cfg : HooksConfigResolved) (env : HookRequestEnv)
    (hpath : hookPathMatches cfg.basePath env.pathname = true)
    (htok : env.extractedToken = none ∨ env.extractedToken = some "") :
    handleHooksRequest (some cfg) env =
      some { response := plainText 401 "Unauthorized", dispatches := [], warnLogs := [] } := by
  rcases htok with h | h <;> simp [handleHooksRequest, hpath, hookTokenAccepted, h]

/-- C9 witness: a request carrying the empty token against a
configuration whose secret is the empty string is still rejected 401. -/
theorem c9_empty_token_rejected_witness :
    handleHooksRequest
      (some { basePath := "/hooks", token := "", maxBodyBytes := 64, mappings := [] })
      { pathname := "/hooks/wake", method := "POST", extractedToken := some "",
        bodyResult := .ok .null, wakeNorm := .error "bad", agentNorm := .error "bad",
        mappingOutcome := .returned none, agentRunId := "" } =
      some { response := plainText 401 "Unauthorized", dispatches := [], warnLogs := [] } :=
  c9_empty_token_rejected _ _ (by decide) (Or.inr rfl)

/-- C4 counterexample: a `GET` on a matched hook path whose token is
absent receives `401 Unauthorized` with no `Allow` header — not the
claimed `405` — because the token gate precedes the method gate. -/
theorem c4_unauthenticated_get_counterexample :
    handleHooksRequest
      (some { basePath := "/hooks", token := "secret", maxBodyBytes := 64, mappings := [] })
      { pathname := "/hooks/wake", method := "GET", extractedToken := none,
        bodyResult := .ok .null, wakeNorm := .error "bad", agentNorm := .error "bad",
        mappingOutcome := .returned none, agentRunId := "" } =
      some { response := plainText 401 "Unauthorized", dispatches := [], warnLogs := [] } ∧
    (plainText 401 "Unauthorized").status ≠ 405 ∧
    (plainText 401 "Unauthorized").allow = none :=
  ⟨rfl, by decide, rfl⟩

/-- C4 (amended): on a matched hook path, a request whose extracted token
authenticates and whose method is not `POST` receives `405` with an
`Allow: POST` header. -/
theorem c4_non_post_with_valid_token_is_405 (cfg : HooksConfigResolved) (env : HookRequestEnv)
    (hpath : hookPathMatches cfg.basePath env.pathname = true)
    (htok : hookTokenAccepted cfg env.extractedToken = true)
    (hm : env.method ≠ "POST") :
    handleHooksRequest (some cfg) env =
      some { response := { plainText 405 "Method Not Allowed" with allow := some "POST" },
             dispatches := [], warnLogs := [] } := by
  simp [handleHooksRequest, hpath, htok, hm]

/-- C4 witness: an authenticated `GET` on the wake path receives 405 with
`Allow: POST`. -/
theorem c4_non_post_with_valid_token_is_405_witness :
    handleHooksRequest
      (some { basePath := "/hooks", token := "secret", maxBodyBytes := 64, mappings := [] })
      { pathname := "/hooks/wake", method := "GET", extractedToken := some "secret",
        bodyResult := .ok .null, wakeNorm := .error "bad", agentNorm := .error "bad",
        mappingOutcome := .returned none, agentRunId := "" } =
      some { response := { plainText 405 "Method Not Allowed" with allow := some "POST" },
             dispatches := [], warnLogs := [] } :=
  c4_non_post_with_valid_token_is_405 _ _ (by decide) (by decide) (by decide)

/-- C8 counterexample: when the mapping engine throws `"boom"`, the 500
response's `error` field is the fixed text `"hook mapping failed"`, not
the formatted error text (`formatError` of the thrown value, `"boom"`). -/
theorem c8_fixed_error_text_counterexample :
    handleHooksRequest
      (some { basePath := "/hooks", token := "secret", maxBodyBytes := 64, mappings := [.mk] })
      { pathname := "/hooks/custom", method := "POST", extractedToken := some "secret",
        bodyResult := .ok (.obj []), wakeNorm := .error "bad", agentNorm := .error "bad",
        mappingOutcome := .threw (.str "boom"), agentRunId := "" } =
      some { response := sendJson 500 [("ok", .bool false), ("error", .str "hook mapping failed")],
             dispatches := [],
             warnLogs := ["hook mapping failed: boom"] } ∧
    respErrorText (sendJson 500 [("ok", .bool false), ("error", .str "hook mapping failed")]) =
      some "hook mapping failed" ∧
    formatError (.str "boom") = some "boom" ∧
    respErrorText (sendJson 500 [("ok", .bool false), ("error", .str "hook mapping failed")]) ≠
      formatError (.str "boom") :=
  ⟨rfl, rfl, rfl, by decide⟩

/-- C8 (amended): whenever the mapping engine throws while applying hook
mappings, the handler catches the exception at the dispatcher boundary
and returns normally (it never re-raises into the listener): the request
receives a `500` JSON response with the fixed error text
`"hook mapping failed"`, no dispatch is performed, and one warn log line
carrying the stringified exception is emitted. -/
theorem c8_mapping_throw_caught (cfg : HooksConfigResolved) (env : HookRequestEnv)
    (e v : JsValue)
    (hpath : hookPathMatches cfg.basePath env.pathname = true)
    (htok : hookTokenAccepted cfg env.extractedToken = true)
    (hm : env.method = "POST")
    (hsub0 : hookSubPath cfg.basePath env.pathname ≠ "")
    (hsubw : hookSubPath cfg.basePath env.pathname ≠ "wake")
    (hsuba : hookSubPath cfg.basePath env.pathname ≠ "agent")
    (hbody : env.bodyResult = .ok v)
    (hmaps : cfg.mappings.length > 0)
    (hthrow : env.mappingOutcome = .threw e) :
    handleHooksRequest (some cfg) env =
      some { response := sendJson 500 [("ok", .bool false), ("error", .str "hook mapping failed")],
             dispatches := [],
             warnLogs := ["hook mapping failed: " ++ jsString e] } := by
  simp [handleHooksRequest, hpath, htok, hm, hsub0, hsubw, hsuba, hbody, hmaps, hthrow]

/-- C8 witness: a concrete non-built-in hook request on which the mapping
engine throws an `Error` object. -/
theorem c8_mapping_throw_caught_witness :
    handleHooksRequest
      (some { basePath := "/hooks", token := "secret", maxBodyBytes := 64, mappings := [.mk] })
      { pathname := "/hooks/github", method := "POST", extractedToken := some "secret",
        bodyResult := .ok (.obj []), wakeNorm := .error "bad", agentNorm := .error "bad",
        mappingOutcome := .threw (.err "engine blew up"), agentRunId := "" } =
      some { response := sendJson 500 [("ok", .bool false), ("error", .str "hook mapping failed")],
             dispatches := [],
             warnLogs := ["hook mapping failed: Error: engine blew up"] } :=
  c8_mapping_throw_caught _ _ (.err "engine blew up") (.obj []) (by decide) (by decide) rfl
    (by decide) (by decide) (by decide) rfl (by decide) rfl

/-- C3 counterexample: `markWhatsAppLoggedOut` does not leave `running`
unchanged — from a state with `running = true` (and `cleared = false`,
so `lastError` is untouched) it forces `running` to `false`. -/
theorem c3_mark_logged_out_counterexample :
    ({ runtime := { running := true, connected := true }, task := true, abortC := true }
      : WhatsAppState).runtime.running = true ∧
    ((markWhatsAppLoggedOut false
      { runtime := { running := true, connected := true }, task := true, abortC := true })
      ).runtime.running = false :=
  ⟨rfl, rfl⟩

/-- C3 (amended): for every prior state and every `cleared`,
`markWhatsAppLoggedOut` sets `running` and `connected` to `false`, sets
`lastError` to `"logged out"` when `cleared` is true and leaves it
unchanged otherwise, and leaves everything else — the task handle, the
cancellation token and all remaining status fields — unchanged. -/
theorem c3_mark_logged_out_frame (cleared : Bool) (s : WhatsAppState) :
    (markWhatsAppLoggedOut cleared s).task = s.task ∧
    (markWhatsAppLoggedOut cleared s).abortC = s.abortC ∧
    (markWhatsAppLoggedOut cleared s).runtime.running = false ∧
    (markWhatsAppLoggedOut cleared s).runtime.connected = false ∧
    (markWhatsAppLoggedOut cleared s).runtime.lastError =
      (if cleared then some "logged out" else s.runtime.lastError) ∧
    (markWhatsAppLoggedOut cleared s).runtime.reconnectAttempts = s.runtime.reconnectAttempts ∧
    (markWhatsAppLoggedOut cleared s).runtime.lastConnectedAt = s.runtime.lastConnectedAt ∧
    (markWhatsAppLoggedOut cleared s).runtime.lastDisconnect = s.runtime.lastDisconnect ∧
    (markWhatsAppLoggedOut cleared s).runtime.lastMessageAt = s.runtime.lastMessageAt ∧
    (markWhatsAppLoggedOut cleared s).runtime.lastEventAt = s.runtime.lastEventAt :=
  ⟨rfl, rfl, rfl, rfl, rfl, rfl, rfl, rfl, rfl, rfl⟩

/-- C6 counterexample: the normalizer does not deduplicate — a repeated
entry survives twice in the output. -/
theorem c6_duplicates_counterexample :
    normalizeVoiceWakeTriggers (.arr [.str "hello", .str "hello"]) = ["hello", "hello"] ∧
    ¬ (normalizeVoiceWakeTriggers (.arr [.str "hello", .str "hello"])).Nodup :=
  ⟨by decide, by decide⟩

/-- C6 (amended): the normalizer performs no deduplication; whenever the
cleaned list is non-empty it is returned as-is, and it is an
order-preserving selection (a sublist) of the input entries' cleaned
forms (trimmed, then truncated to 64 characters) — surviving entries
appear in input order, duplicates included. -/
theorem c6_no_dedup_order_preserved (xs : List JsValue)
    (h : cleanedTriggers xs ≠ []) :
    normalizeVoiceWakeTriggers (.arr xs) = cleanedTriggers xs ∧
    List.Sublist (cleanedTriggers xs) ((xs.map cleanVal).map (jsSlice 64)) := by
  constructor
  · simp only [normalizeVoiceWakeTriggers]
    rw [if_pos (List.length_pos.mpr h)]
  · unfold cleanedTriggers
    exact ((List.take_sublist _ _).trans (List.filter_sublist _)).map (jsSlice 64)

/-- C6 witness: a concrete input with a duplicate entry, cleaned list
non-empty. -/
theorem c6_no_dedup_order_preserved_witness :
    normalizeVoiceWakeTriggers (.arr [.str " a ", .str "b", .str " a "]) =
      cleanedTriggers [.str " a ", .str "b", .str " a "] ∧
    List.Sublist (cleanedTriggers [.str " a ", .str "b", .str " a "])
      (([JsValue.str " a ", .str "b", .str " a "].map cleanVal).map (jsSlice 64)) :=
  c6_no_dedup_order_preserved [.str " a ", .str "b", .str " a "] (by decide)

/-- The cleaned-trigger list never exceeds 32 entries (`slice(0, 32)`). -/
theorem cleanedTriggers_length_le (raw : List JsValue) :
    (cleanedTriggers raw).length ≤ 32 := by
  unfold cleanedTriggers
  simp [List.length_take]

/-- The trimmed string is a prefix of the string with its leading
whitespace dropped (dropping trailing whitespace only shortens it from
the right). -/
theorem jsTrim_data_isPrefixOf (s : String) :
    (jsTrim s).data <+: s.data.dropWhile Char.isWhitespace := by
  unfold jsTrim
  have h : ((s.data.dropWhile Char.isWhitespace).reverse.dropWhile Char.isWhitespace) <:+
      (s.data.dropWhile Char.isWhitespace).reverse :=
    List.dropWhile_suffix _
  have h2 := List.reverse_prefix.mpr h
  simpa using h2

/-- A non-empty prefix starts with the same element as the longer list. -/
theorem prefix_head_eq {l₁ l₂ : List α} (h : l₁ <+: l₂) (hne : l₁ ≠ []) :
    l₁.head? = l₂.head? := by
  obtain ⟨t, rfl⟩ := h
  cases l₁ with
  | nil => exact absurd rfl hne
  | cons a l => rfl

/-- A trimmed string never starts with whitespace. -/
theorem jsTrim_noLeadingWhitespace (s : String) :
    noLeadingWhitespace (jsTrim s) = true := by
  unfold noLeadingWhitespace
  rcases hh : (jsTrim s).data.head? with _ | ⟨c⟩
  · rfl
  · have hne : (jsTrim s).data ≠ [] := by
      intro h0; rw [h0] at hh; exact Option.noConfusion hh
    have hpre := prefix_head_eq (jsTrim_data_isPrefixOf s) hne
    rw [hh] at hpre
    have hdrop : (s.data.dropWhile Char.isWhitespace) ≠ [] := by
      intro h0; rw [h0] at hpre; exact Option.noConfusion hpre
    have hc : (s.data.dropWhile Char.isWhitespace).head hdrop = c := by
      have := List.head?_eq_head hdrop
      rw [← hpre] at this
      exact (Option.some_injective _ this.symm)
    have := List.head_dropWhile_not Char.isWhitespace s.data hdrop
    rw [hc] at this
    simp [this]

/-- Truncating keeps the first character (for a positive bound). -/
theorem take_head?_eq (l : List α) (n : Nat) (hn : 0 < n) :
    (l.take n).head? = l.head? := by
  cases l with
  | nil => simp
  | cons a t =>
      cases n with
      | zero => exact absurd hn (by decide)
      | succ m => simp [List.take]

/-- Every entry of the cleaned-trigger list is at most 64 characters,
non-empty, and free of leading whitespace. -/
theorem cleanedTriggers_mem_bounds (raw : List JsValue) (t : String)
    (ht : t ∈ cleanedTriggers raw) :
    t.length ≤ 64 ∧ t ≠ "" ∧ noLeadingWhitespace t = true := by
  unfold cleanedTriggers at ht
  obtain ⟨u, hu, rfl⟩ := List.mem_map.mp ht
  have hu' : u ∈ (raw.map cleanVal).filter (fun v => v.length > 0) :=
    List.mem_of_mem_take hu
  have hulen : u.length > 0 := by simpa using List.of_mem_filter hu'
  have humem : u ∈ raw.map cleanVal := List.mem_of_mem_filter hu'
  obtain ⟨v, hv, huv⟩ := List.mem_map.mp humem
  have hdata : u.data ≠ [] := by
    intro h0
    have hlen : u.length = 0 := by
      show u.data.length = 0
      rw [h0]
      rfl
    omega
  refine ⟨?_, ?_, ?_⟩
  · show (u.data.take 64).length ≤ 64
    rw [List.length_take]
    exact Nat.min_le_left _ _
  · show String.mk (u.data.take 64) ≠ ""
    intro h0
    have : u.data.take 64 = [] := congrArg String.data h0
    rcases List.take_eq_nil_iff.mp this with h | h
    · exact absurd h (by decide)
    · exact hdata h
  · have hstr : ∃ s, v = .str s ∧ u = jsTrim s := by
      cases v
      case str s => exact ⟨s, rfl, huv.symm⟩
      all_goals
        exfalso
        rw [← huv] at hulen
        simp only [cleanVal] at hulen
        exact absurd hulen (by decide)
    obtain ⟨s, _, rfl⟩ := hstr
    show noLeadingWhitespace (String.mk ((jsTrim s).data.take 64)) = true
    have h64 := take_head?_eq (jsTrim s).data 64 (by decide)
    have := jsTrim_noLeadingWhitespace s
    unfold noLeadingWhitespace at this ⊢
    rw [h64]
    exact this

/-- An all-blank input cleans to the empty list. -/
theorem cleanedTriggers_all_blank (xs : List JsValue)
    (h : ∀ v ∈ xs, cleanVal v = "") : cleanedTriggers xs = [] := by
  unfold cleanedTriggers
  have : (xs.map cleanVal).filter (fun v => v.length > 0) = [] := by
    rw [List.filter_eq_nil_iff]
    intro a ha
    obtain ⟨v, hv, rfl⟩ := List.mem_map.mp ha
    simp [h v hv, String.length]
  rw [this]
  rfl

/-- C5 counterexample: a 65-character entry with a space at position 64
is trimmed (no leading/trailing whitespace) but then truncated to 64
characters, leaving a trailing space in the output — so the output is
not free of trailing whitespace. -/
theorem c5_trailing_whitespace_counterexample :
    normalizeVoiceWakeTriggers (.arr [.str (String.mk (List.replicate 63 'a') ++ " b")]) =
      [String.mk (List.replicate 63 'a') ++ " "] ∧
    (String.mk (List.replicate 63 'a') ++ " ").data.getLast? = some ' ' ∧
    jsTrim (String.mk (List.replicate 63 'a') ++ " ") ≠
      String.mk (List.replicate 63 'a') ++ " " :=
  ⟨by decide, by decide, by decide⟩

/-- C5 (amended): for every input, the normalizer's output has at most 32
entries, each at most 64 characters, non-empty, and free of leading
whitespace (trailing whitespace can survive, but only through the
64-character truncation of a trimmed entry); an empty or all-blank array
input yields the fixed default trigger list. -/
theorem c5_normalizer_bounds (input : JsValue) :
    (normalizeVoiceWakeTriggers input).length ≤ 32 ∧
    (∀ t ∈ normalizeVoiceWakeTriggers input,
      t.length ≤ 64 ∧ t ≠ "" ∧ noLeadingWhitespace t = true) ∧
    (∀ xs, input = .arr xs → (∀ v ∈ xs, cleanVal v = "") →
      normalizeVoiceWakeTriggers input = defaultVoiceWakeTriggers) := by
  have hdef1 : defaultVoiceWakeTriggers.length ≤ 32 := by decide
  have hdef2 : ∀ t ∈ defaultVoiceWakeTriggers,
      t.length ≤ 64 ∧ t ≠ "" ∧ noLeadingWhitespace t = true := by decide
  refine ⟨?_, ?_, ?_⟩
  · cases input
    case arr xs =>
        show (if (cleanedTriggers xs).length > 0 then cleanedTriggers xs
              else defaultVoiceWakeTriggers).length ≤ 32
        split
        · exact cleanedTriggers_length_le xs
        · exact hdef1
    all_goals exact hdef1
  · cases input
    case arr xs =>
        show ∀ t ∈ (if (cleanedTriggers xs).length > 0 then cleanedTriggers xs
                    else defaultVoiceWakeTriggers), _
        split
        · exact fun t ht => cleanedTriggers_mem_bounds xs t ht
        · exact hdef2
    all_goals exact hdef2
  · intro xs heq hblank
    subst heq
    show (if (cleanedTriggers xs).length > 0 then cleanedTriggers xs
          else defaultVoiceWakeTriggers) = defaultVoiceWakeTriggers
    rw [cleanedTriggers_all_blank xs hblank]
    rfl

/-- C5 witness: a single trimmed entry obeys the bounds, and an all-blank
input yields the default list. -/
theorem c5_normalizer_bounds_witness :
    ("hi".length ≤ 64 ∧ "hi" ≠ "" ∧ noLeadingWhitespace "hi" = true) ∧
    normalizeVoiceWakeTriggers (.arr [.str "  "]) = defaultVoiceWakeTriggers :=
  ⟨(c5_normalizer_bounds (.arr [.str " hi "])).2.1 "hi" (by decide),
   (c5_normalizer_bounds (.arr [.str "  "])).2.2 [.str "  "] rfl (by decide)⟩


/-- The digit-accumulator of `Nat.toDigits` never shrinks its
accumulator. -/
theorem toDigitsCore_length_le (b f n : Nat) (acc : List Char) :
    acc.length ≤ (Nat.toDigitsCore b f n acc).length := by
  induction f generalizing n acc with
  | zero => simp [Nat.toDigitsCore]
  | succ f ih =>
      simp only [Nat.toDigitsCore]
      split
      · simp
      · exact le_trans (by simp) (ih _ _)

/-- `Nat.toDigits` always produces at least one digit. -/
theorem toDigits_ne_nil (b n : Nat) : Nat.toDigits b n ≠ [] := by
  have h : 1 ≤ (Nat.toDigitsCore b (n + 1) n []).length := by
    have hrec := toDigitsCore_length_le b n (n / b) [Nat.digitChar (n % b)]
    simp only [Nat.toDigitsCore]
    split
    · simp
    · simpa using le_trans (by simp) hrec
  intro hcon
  rw [Nat.toDigits] at hcon
  simp [hcon] at h

/-- The decimal rendering of a natural number is never empty. -/
theorem natRepr_ne_empty (n : Nat) : Nat.repr n ≠ "" := by
  have hne := toDigits_ne_nil 10 n
  intro h
  rw [Nat.repr] at h
  apply hne
  have hdata : (Nat.toDigits 10 n).asString.data = ("" : String).data := by rw [h]
  simpa [List.asString] using hdata

/-- The decimal rendering of an integer (`String(n)` for a number) is
never empty. -/
theorem intRepr_ne_empty (n : Int) : Int.repr n ≠ "" := by
  cases n with
  | ofNat m => simpa [Int.repr] using natRepr_ne_empty m
  | negSucc m =>
      simp only [Int.repr]
      intro h
      have hlen : ("-" ++ Nat.repr (m + 1)).length = 0 := by rw [h]; rfl
      rw [String.length_append] at hlen
      simp at hlen
      exact (by decide : ("-" : String).length ≠ 0) hlen.1

/-- A string of length zero is the empty string. -/
theorem string_eq_empty_of_length (s : String) (h : s.length = 0) : s = "" := by
  cases s with
  | mk data =>
      have hd : data = [] := List.length_eq_zero.mp h
      rw [hd]

/-- Folding `acc ++ sep ++ x` over a list never shrinks the
accumulator. -/
theorem foldl_sep_length_le (sep : String) (rest : List String) (acc : String) :
    acc.length ≤ (rest.foldl (fun a x => a ++ sep ++ x) acc).length := by
  induction rest generalizing acc with
  | nil => exact le_refl _
  | cons x t ih =>
      refine le_trans ?_ (ih (acc ++ sep ++ x))
      rw [String.length_append, String.length_append]
      omega

/-- A join whose first element is non-empty is non-empty. -/
theorem jsJoin_cons_ne_empty (sep a : String) (rest : List String) (ha : a ≠ "") :
    jsJoin sep (a :: rest) ≠ "" := by
  intro h
  have h1 : 0 < a.length := by
    rcases Nat.eq_zero_or_pos a.length with h0 | h0
    · exact absurd (string_eq_empty_of_length a h0) ha
    · exact h0
  have h2 := foldl_sep_length_le sep rest a
  have h3 : (jsJoin sep (a :: rest)).length = 0 := by rw [h]; rfl
  rw [jsJoin] at h3
  omega

/-- Appending a non-empty string on the right yields a non-empty
string. -/
theorem append_ne_empty_of_right (a b : String) (hb : b ≠ "") : a ++ b ≠ "" := by
  intro h
  have hlen : (a ++ b).length = 0 := by rw [h]; rfl
  rw [String.length_append] at hlen
  exact hb (string_eq_empty_of_length b (by omega))

/-- `JSON.stringify(v, null, 2)` yields a non-empty string for every
defined value. -/
theorem jsonStringifyAt_nonempty (d : Nat) (v : JsValue) (h : v ≠ .undefined) :
    ∃ s, jsonStringifyAt d v = some s ∧ s ≠ "" := by
  cases v with
  | undefined => exact absurd rfl h
  | null => exact ⟨"null", rfl, by decide⟩
  | bool b => cases b
              · exact ⟨"false", rfl, by decide⟩
              · exact ⟨"true", rfl, by decide⟩
  | num n => exact ⟨Int.repr n, rfl, intRepr_ne_empty n⟩
  | str s =>
      refine ⟨"\"" ++ jsonEscape s ++ "\"", rfl, ?_⟩
      exact append_ne_empty_of_right _ _ (by decide)
  | err m => exact ⟨"\x7b\x7d", rfl, by decide⟩
  | arr xs =>
      rcases hi : jsonArrayItems (d + 1) xs with _ | ⟨a, t⟩
      · exact ⟨"[]", by simp [jsonStringifyAt, hi], by decide⟩
      · have heq : jsonStringifyAt d (.arr xs) =
            some ("[\n" ++ jsJoin ",\n" ((a :: t).map (fun it => jsonIndent (d + 1) ++ it)) ++
              "\n" ++ jsonIndent d ++ "]") := by
          simp [jsonStringifyAt, hi]
        exact ⟨_, heq, append_ne_empty_of_right _ _ (by decide)⟩
  | obj fs =>
      rcases hi : jsonObjectItems (d + 1) fs with _ | ⟨a, t⟩
      · exact ⟨"\x7b\x7d", by simp [jsonStringifyAt, hi], by decide⟩
      · have heq : jsonStringifyAt d (.obj fs) =
            some ("\x7b\n" ++ jsJoin ",\n" ((a :: t).map (fun it => jsonIndent (d + 1) ++ it)) ++
              "\n" ++ jsonIndent d ++ "\x7d") := by
          simp [jsonStringifyAt, hi]
        exact ⟨_, heq, append_ne_empty_of_right _ _ (by decide)⟩

/-- When at least one of the textual `status`/`code` parts is truthy,
their space-joined, falsy-filtered rendering is non-empty. -/
theorem statusCodeJoin_ne_empty (stT cdT : Option String)
    (hcond : (optTruthy stT || optTruthy cdT) = true) :
    jsJoin " " (([stT, cdT].filterMap id).filter (fun s => s ≠ "")) ≠ "" := by
  rcases stT with _ | s <;> rcases cdT with _ | c
  · simp [optTruthy] at hcond
  · have hc : c ≠ "" := by simpa [optTruthy] using hcond
    simpa [hc] using jsJoin_cons_ne_empty " " c [] hc
  · have hs : s ≠ "" := by simpa [optTruthy] using hcond
    simpa [hs] using jsJoin_cons_ne_empty " " s [] hs
  · by_cases hs : s = ""
    · have hc : c ≠ "" := by simpa [optTruthy, hs] using hcond
      simpa [hs, hc] using jsJoin_cons_ne_empty " " c [] hc
    · by_cases hc : c = ""
      · simpa [hs, hc] using jsJoin_cons_ne_empty " " s [] hs
      · simpa [hs, hc] using jsJoin_cons_ne_empty " " s [c] hs

/-- For every defined value, `formatError` yields a string, and that
string can be empty only for the empty plain string or an `Error` with
empty message. -/
theorem formatError_defined (v : JsValue) (hv : v ≠ .undefined) :
    ∃ s, formatError v = some s ∧ (s = "" → (v = .str "" ∨ v = .err "")) := by
  cases v with
  | undefined => exact absurd rfl hv
  | str s => exact ⟨s, rfl, fun h => Or.inl (by rw [h])⟩
  | err m => exact ⟨m, rfl, fun h => Or.inr (by rw [h])⟩
  | null => exact ⟨"null", rfl, fun h => absurd h (by decide)⟩
  | bool b =>
      cases b
      · exact ⟨"false", rfl, fun h => absurd h (by decide)⟩
      · exact ⟨"true", rfl, fun h => absurd h (by decide)⟩
  | num n => exact ⟨Int.repr n, rfl, fun h => absurd h (intRepr_ne_empty n)⟩
  | arr xs =>
      obtain ⟨s, hs, hne⟩ := jsonStringifyAt_nonempty 0 (.arr xs) (fun h => JsValue.noConfusion h)
      refine ⟨s, ?_, fun h => absurd h hne⟩
      simpa [formatError, jsGetField, jsPrimToString, optTruthy, jsonStringify] using hs
  | obj fs =>
      by_cases hcond : (optTruthy (jsPrimToString (jsGetField (.obj fs) "status")) ||
          optTruthy (jsPrimToString (jsGetField (.obj fs) "code"))) = true
      · refine ⟨jsJoin " " (([jsPrimToString (jsGetField (.obj fs) "status"),
            jsPrimToString (jsGetField (.obj fs) "code")].filterMap id).filter (fun s => s ≠ "")),
          ?_, fun h => absurd h (statusCodeJoin_ne_empty _ _ hcond)⟩
        simp [formatError, hcond]
      · obtain ⟨s, hs, hne⟩ := jsonStringifyAt_nonempty 0 (.obj fs) (fun h => JsValue.noConfusion h)
        refine ⟨s, ?_, fun h => absurd h hne⟩
        simp only [formatError, jsonStringify]
        rw [if_neg (by simpa using hcond)]
        exact hs

/-- C7 counterexample: `formatError` applied to the empty plain string
returns the empty string, refuting "non-empty for every input". -/
theorem c7_empty_string_counterexample :
    formatError (.str "") = some "" ∧ ("" : String).length = 0 :=
  ⟨rfl, rfl⟩

/-- C7 (amended): `formatError` follows the stated rule (an `Error`'s
message wins, then plain text as-is, then `"<status> <code>"`, then the
structured dump), and its result is a string for every defined input; the
result is `undefined` exactly for a JS `undefined` input, and is the
empty string exactly when the input is the empty plain string or an
`Error` carrying an empty message — every other input yields a non-empty
string. -/
theorem c7_format_error_characterization :
    (∀ m, formatError (.err m) = some m) ∧
    (∀ s, formatError (.str s) = some s) ∧
    (∀ v : JsValue, formatError v = none ↔ v = .undefined) ∧
    (∀ v : JsValue, formatError v = some "" ↔ (v = .str "" ∨ v = .err "")) := by
  refine ⟨fun m => rfl, fun s => rfl, fun v => ?_, fun v => ?_⟩
  · constructor
    · intro h
      by_contra hv
      obtain ⟨s, hs, _⟩ := formatError_defined v hv
      rw [hs] at h
      exact Option.noConfusion h
    · intro h
      subst h
      rfl
  · constructor
    · intro h
      have hv : v ≠ .undefined := by
        intro hu
        subst hu
        exact Option.noConfusion h
      obtain ⟨s, hs, himp⟩ := formatError_defined v hv
      rw [hs] at h
      injection h with h'
      exact himp h'
    · intro h
      rcases h with h | h <;> (subst h; rfl)

/-- C1: for every connector kind, `start` is a no-op while a task handle
is present — it returns the state unchanged, reads no configuration and
creates no task; and starting twice in succession from a task-less state
(when the first call does create a task) leaves exactly one task, with
the status record showing `running = true` after both calls (the second
call changes nothing). -/
theorem c1_start_idempotent :
    (∀ (env : WhatsAppStartEnv) (s : WhatsAppState), s.task = true →
      startWhatsAppProvider env s = (s, ⟨false, false⟩)) ∧
    (∀ (env : TelegramStartEnv) (s : TelegramState), s.task = true →
      startTelegramProvider env s = (s, ⟨false, false⟩)) ∧
    (∀ (env : DiscordStartEnv) (s : DiscordState), s.task = true →
      startDiscordProvider env s = (s, ⟨false, false⟩)) ∧
    (∀ (env : SignalStartEnv) (s : SignalState), s.task = true →
      startSignalProvider env s = (s, ⟨false, false⟩)) ∧
    (∀ (env : IMessageStartEnv) (s : IMessageState), s.task = true →
      startIMessageProvider env s = (s, ⟨false, false⟩)) ∧
    (∀ (env₁ env₂ : WhatsAppStartEnv) (s : WhatsAppState),
      (startWhatsAppProvider env₁ s).2.taskCreated = true →
      (startWhatsAppProvider env₁ s).1.task = true ∧
      (startWhatsAppProvider env₁ s).1.runtime.running = true ∧
      startWhatsAppProvider env₂ (startWhatsAppProvider env₁ s).1 =
        ((startWhatsAppProvider env₁ s).1, ⟨false, false⟩)) ∧
    (∀ (env₁ env₂ : TelegramStartEnv) (s : TelegramState),
      (startTelegramProvider env₁ s).2.taskCreated = true →
      (startTelegramProvider env₁ s).1.task = true ∧
      (startTelegramProvider env₁ s).1.runtime.running = true ∧
      startTelegramProvider env₂ (startTelegramProvider env₁ s).1 =
        ((startTelegramProvider env₁ s).1, ⟨false, false⟩)) ∧
    (∀ (w : WhatsAppState) (t : TelegramState) (d : DiscordState)
        (sg : SignalState) (im : IMessageState),
      (getRuntimeSnapshot w t d sg im).whatsapp = w.runtime ∧
      (getRuntimeSnapshot w t d sg im).telegram = t.runtime) := by
  refine ⟨?_, ?_, ?_, ?_, ?_, ?_, ?_, fun w t d sg im => ⟨rfl, rfl⟩⟩
  · intro env s h
    simp [startWhatsAppProvider, h]
  · intro env s h
    simp [startTelegramProvider, h]
  · intro env s h
    simp [startDiscordProvider, h]
  · intro env s h
    simp [startSignalProvider, h]
  · intro env s h
    simp [startIMessageProvider, h]
  · intro env₁ env₂ s h
    by_cases h1 : s.task <;> by_cases h2 : env₁.webEnabled = some false <;>
      by_cases h3 : env₁.authExists <;>
      simp [startWhatsAppProvider, h1, h2, h3] at h ⊢
  · intro env₁ env₂ s h
    by_cases h1 : s.task <;> by_cases h2 : env₁.telegramEnabled = some false <;>
      by_cases h3 : jsTrim env₁.resolvedToken = "" <;>
      simp [startTelegramProvider, h1, h2, h3] at h ⊢

/-- C1 witness: concrete no-op second calls for all five kinds, and a
concrete double-start for WhatsApp and Telegram. -/
theorem c1_start_idempotent_witness :
    startWhatsAppProvider ⟨none, true⟩
      { runtime := { running := true, connected := false }, task := true, abortC := true } =
      ({ runtime := { running := true, connected := false }, task := true, abortC := true },
       ⟨false, false⟩) ∧
    startTelegramProvider ⟨none, "tok", none, 5⟩
      { runtime := { running := true }, task := true, abortC := true } =
      ({ runtime := { running := true }, task := true, abortC := true }, ⟨false, false⟩) ∧
    startDiscordProvider ⟨none, "tok", 5⟩
      { runtime := { running := true }, task := true, abortC := true } =
      ({ runtime := { running := true }, task := true, abortC := true }, ⟨false, false⟩) ∧
    startSignalProvider ⟨none, 5⟩
      { runtime := { running := true }, task := true, abortC := true } =
      ({ runtime := { running := true }, task := true, abortC := true }, ⟨false, false⟩) ∧
    startIMessageProvider ⟨none, 5⟩
      { runtime := { running := true }, task := true, abortC := true } =
      ({ runtime := { running := true }, task := true, abortC := true }, ⟨false, false⟩) ∧
    ((startWhatsAppProvider ⟨none, true⟩ whatsappInit).1.task = true ∧
     (startWhatsAppProvider ⟨none, true⟩ whatsappInit).1.runtime.running = true ∧
     startWhatsAppProvider ⟨some true, false⟩ (startWhatsAppProvider ⟨none, true⟩ whatsappInit).1 =
       ((startWhatsAppProvider ⟨none, true⟩ whatsappInit).1, ⟨false, false⟩)) ∧
    ((startTelegramProvider ⟨none, "tok", none, 5⟩ telegramInit).1.task = true ∧
     (startTelegramProvider ⟨none, "tok", none, 5⟩ telegramInit).1.runtime.running = true ∧
     startTelegramProvider ⟨none, "", some "https://u", 9⟩
         (startTelegramProvider ⟨none, "tok", none, 5⟩ telegramInit).1 =
       ((startTelegramProvider ⟨none, "tok", none, 5⟩ telegramInit).1, ⟨false, false⟩)) :=
  ⟨c1_start_idempotent.1 ⟨none, true⟩ _ rfl,
   c1_start_idempotent.2.1 ⟨none, "tok", none, 5⟩ _ rfl,
   c1_start_idempotent.2.2.1 ⟨none, "tok", 5⟩ _ rfl,
   c1_start_idempotent.2.2.2.1 ⟨none, 5⟩ _ rfl,
   c1_start_idempotent.2.2.2.2.1 ⟨none, 5⟩ _ rfl,
   c1_start_idempotent.2.2.2.2.2.1 ⟨none, true⟩ ⟨some true, false⟩ whatsappInit (by decide),
   c1_start_idempotent.2.2.2.2.2.2.1 ⟨none, "tok", none, 5⟩ ⟨none, "", some "https://u", 9⟩
     telegramInit (by decide)⟩

/-- C2 counterexample, two refutations. Order: inside the `.finally`
block the source clears the task handle *before* setting
`running := false` — the reverse of the claimed order — so in the
micro-trace of the block (initial state prepended) the first index at
which `running` is false (3) comes strictly after the first index at
which the task handle is gone (2). Observability: the claimed
"no observable state in which running is true while no task exists" is
also refuted — `startWhatsAppProvider` suspends at
`await webAuthExists()` after its idempotency check, so two overlapping
`start` calls both pass the null check and double-launch; when the
orphaned monitor's `.finally` then clears the stored handle while the
other monitor is still live, that monitor's next status push leaves the
supervisor in a reachable state with `running = true` and no task. -/
theorem c2_settle_order_counterexample :
    (settleFinallyMicroWhatsApp
        { runtime := { running := true, connected := true }, task := true, abortC := true })[1]? =
      some { runtime := { running := true, connected := true }, task := false, abortC := false } ∧
    ¬ (List.findIdx (fun t => !t.runtime.running)
          ({ runtime := { running := true, connected := true }, task := true, abortC := true } ::
            settleFinallyMicroWhatsApp
              { runtime := { running := true, connected := true }, task := true, abortC := true }) ≤
        List.findIdx (fun t => !t.task)
          ({ runtime := { running := true, connected := true }, task := true, abortC := true } ::
            settleFinallyMicroWhatsApp
              { runtime := { running := true, connected := true }, task := true, abortC := true })) ∧
    ReachWhatsAppSched ⟨⟨{ running := true, connected := true }, false, false⟩, 0, 1⟩ ∧
    (⟨⟨{ running := true, connected := true }, false, false⟩, 0, 1⟩
      : WhatsAppSchedState).core.runtime.running = true ∧
    (⟨⟨{ running := true, connected := true }, false, false⟩, 0, 1⟩
      : WhatsAppSchedState).core.task = false := by
  refine ⟨by decide, by decide, ?_, rfl, rfl⟩
  have r1 : ReachWhatsAppSched ⟨whatsappInit, 1, 0⟩ :=
    ReachWhatsAppSched.step ReachWhatsAppSched.init (WhatsAppSchedStep.startAwait _ rfl)
  have r2 : ReachWhatsAppSched ⟨whatsappInit, 2, 0⟩ :=
    r1.step (WhatsAppSchedStep.startAwait _ rfl)
  have r3 : ReachWhatsAppSched
      ⟨⟨{ running := true, connected := false }, true, true⟩, 1, 1⟩ :=
    r2.step (WhatsAppSchedStep.startLaunch _ (by decide))
  have r4 : ReachWhatsAppSched
      ⟨⟨{ running := true, connected := false }, true, true⟩, 0, 2⟩ :=
    r3.step (WhatsAppSchedStep.startLaunch _ (by decide))
  have r5 : ReachWhatsAppSched
      ⟨⟨{ running := false, connected := false }, false, false⟩, 0, 1⟩ :=
    r4.step (WhatsAppSchedStep.settleFinally _ (by decide))
  exact r5.step
    (WhatsAppSchedStep.statusSink { running := true, connected := true } _ (by decide))

/-- Every scheduler-reachable Telegram state with `running = true` has a
live task handle — with overlapping starts, stops and settles allowed,
because for this connector only the launch step sets `running := true`
(and it sets the handle in the same synchronous block), and no status
sink exists that could set `running` from outside. -/
theorem reachTelegramSched_running_implies_task (s : TelegramSchedState)
    (hs : ReachTelegramSched s) :
    s.core.runtime.running = true → s.core.task = true := by
  induction hs with
  | init => intro h; exact absurd h (by decide)
  | step hr hst ih =>
      cases hst with
      | startDisabled s₀ h => intro hrun; simp at hrun
      | startNotConfigured s₀ h => intro hrun; simp at hrun
      | startAwait s₀ h => exact ih
      | startLaunch now webhookUrl s₀ h => exact fun _ => rfl
      | settleCatch e s₀ h => exact ih
      | settleFinally now s₀ h => intro hrun; simp [settleFinallyTelegram] at hrun
      | stopTail now s₀ => intro hrun; simp [stopTailTelegram] at hrun

/-- C2 (amended): the settle-time effects are two scheduler-atomic
callbacks — the `.catch` step captures the error into `lastError`,
touching neither `running` nor the task handle, and the `.finally` step
clears the cancellation token and the task handle and sets
`running := false` together in one synchronous block (within it, the
handle is cleared before `running` flips — the reverse of the claimed
order — but no concurrent `start`/`stop`/status-read can observe the
inside of the block). The claimed consequence, no observable state with
`running = true` and no task, holds for the Telegram connector in every
scheduler-reachable state, overlapping starts included; for the WhatsApp
connector it fails (see the counterexample): overlapping `start` calls
across the `await webAuthExists()` suspension can orphan a live monitor
whose status push, after the orphan's `.finally` cleared the handle,
makes `running = true` observable with no task. -/
theorem c2_settle_invariant :
    (∀ s : TelegramSchedState, ReachTelegramSched s →
      s.core.runtime.running = true → s.core.task = true) ∧
    (∀ s : WhatsAppState,
      (settleFinallyWhatsApp s).runtime.running = false ∧
      (settleFinallyWhatsApp s).task = false ∧
      (settleFinallyWhatsApp s).abortC = false ∧
      (settleFinallyWhatsApp s).runtime.lastError = s.runtime.lastError ∧
      (settleFinallyMicroWhatsApp s).getLast? = some (settleFinallyWhatsApp s)) ∧
    (∀ (e : String) (s : WhatsAppState),
      (settleCatchWhatsApp e s).runtime.lastError = some e ∧
      (settleCatchWhatsApp e s).task = s.task ∧
      (settleCatchWhatsApp e s).runtime.running = s.runtime.running) ∧
    (∀ (now : Nat) (s : TelegramState),
      (settleFinallyTelegram now s).runtime.running = false ∧
      (settleFinallyTelegram now s).task = false ∧
      (settleFinallyTelegram now s).abortC = false ∧
      (settleFinallyTelegram now s).runtime.lastStopAt = some now) :=
  ⟨reachTelegramSched_running_implies_task, fun _ => ⟨rfl, rfl, rfl, rfl, rfl⟩,
   fun _ _ => ⟨rfl, rfl, rfl⟩, fun _ _ => ⟨rfl, rfl, rfl, rfl⟩⟩

/-- C2 witness: a concrete scheduler-reachable running Telegram state
has its task handle, and concrete settle steps exhibit the effects. -/
theorem c2_settle_invariant_witness :
    (⟨⟨{ running := true, lastStartAt := some 5, lastStopAt := none, lastError := none,
         mode := some TelegramMode.polling }, true, true⟩, 0, 1⟩
      : TelegramSchedState).core.task = true ∧
    (settleFinallyWhatsApp whatsappInit).runtime.running = false ∧
    (settleCatchWhatsApp "boom" whatsappInit).runtime.lastError = some "boom" ∧
    (settleFinallyTelegram 7 telegramInit).runtime.running = false := by
  refine ⟨?_, (c2_settle_invariant.2.1 whatsappInit).1,
    (c2_settle_invariant.2.2.1 "boom" whatsappInit).1,
    (c2_settle_invariant.2.2.2 7 telegramInit).1⟩
  have r1 : ReachTelegramSched ⟨telegramInit, 1, 0⟩ :=
    ReachTelegramSched.step ReachTelegramSched.init (TelegramSchedStep.startAwait _ rfl)
  have r2 : ReachTelegramSched
      ⟨⟨{ running := true, lastStartAt := some 5, lastStopAt := none, lastError := none,
          mode := some TelegramMode.polling }, true, true⟩, 0, 1⟩ :=
    r1.step (TelegramSchedStep.startLaunch 5 none _ (by decide))
  exact c2_settle_invariant.1 _ r2 rfl
